import Mathlib

/-!
Verification model of the AI4HF data-quality-monitoring-platform connector
(`src/main.py`, `src/models.py`).

The connector is a one-shot batch job: for every configured (dataset, criteria)
pair it triggers a remote quality evaluation, normalizes each returned result
row into a `MonitoringPlatformQualityCheck` event, and forwards the event to a
monitoring ingestion endpoint.  The embedding below models Python values with
the `PyVal` type, HTTP exchanges at the interface boundary with `Resp`/`Env`,
and raised exceptions with `Except`.  Network calls performed by a run are
collected into an explicit `NetCall` trace so that statements such as "no
network call is attempted" are expressible.
-/

/-- A dynamically typed Python value, covering the shapes the connector
manipulates: `None`, booleans, numbers (ints and floats are modelled together
as rationals), strings, lists, and string-keyed dicts. -/
inductive PyVal where
  | none
  | bool (b : Bool)
  | num (q : ℚ)
  | str (s : String)
  | list (xs : List PyVal)
  | dict (entries : List (String × PyVal))

/-- Python truthiness (`bool(v)`): `None`, `False`, `0`, `""`, `[]`, and `{}`
are falsy; everything else is truthy. -/
def pyTruthy : PyVal → Bool
  | .none => false
  | .bool b => b
  | .num q => q != 0
  | .str s => s != ""
  | .list xs => !xs.isEmpty
  | .dict es => !es.isEmpty

/-- Python's short-circuit `a or b`: returns `a` if truthy, else `b`. -/
def pyOr (a b : PyVal) : PyVal := if pyTruthy a then a else b

/-- `v.isNone = true` models Python's `v is None`. -/
def PyVal.isNone : PyVal → Bool
  | .none => true
  | _ => false

/-- Exceptions the dynamic operations can raise. -/
inductive PyErr where
  | attributeError
  | typeError
  | valueError

/-- `d.get(k)` on a dict literal modelled as an association list: the first
binding for `k`, or `None` when the key is missing. -/
def dictGetD (es : List (String × PyVal)) (k : String) : PyVal :=
  match es.lookup k with
  | some v => v
  | Option.none => .none

/-- `v.get(k)`: succeeds on dicts, raises `AttributeError` on anything else
(as Python method lookup would). -/
def pyGet : PyVal → String → Except PyErr PyVal
  | .dict es, k => .ok (dictGetD es k)
  | _, _ => .error .attributeError

/-- `float(v)` for the value shapes the connector can meet; numbers and bools
convert, everything else raises.  (Python additionally parses numeric strings;
no configured claim exercises that path, and the run-level theorems hypothesize
successful event construction.) -/
def pyFloat : PyVal → Except PyErr ℚ
  | .num q => .ok q
  | .bool b => .ok (if b then 1 else 0)
  | _ => .error .valueError

/-- Iterating a Python value in a `for` loop: lists yield their elements;
other shapes are not modelled (Python would iterate a string's characters or a
dict's keys, or raise `TypeError`; no claim exercises those). -/
def toPyList : PyVal → Except PyErr (List PyVal)
  | .list xs => .ok xs
  | _ => .error .typeError

/-- Python `str.strip()` (whitespace strip), written with list operations so
it evaluates inside the kernel. -/
def pyStrip (s : String) : String :=
  String.mk (((s.data.dropWhile Char.isWhitespace).reverse.dropWhile Char.isWhitespace).reverse)

/-- `_opt` from `src/main.py`: return the string if non-empty after trimming,
otherwise `None`.  (`s if s and str(s).strip() else None`.) -/
def pyOpt : Option String → Option String
  | Option.none => Option.none
  | some t => if t == "" then Option.none else if pyStrip t == "" then Option.none else some t

/-! ## The event model (`src/models.py`) -/

/-- `MonitoringPlatformQualityCheck` from `src/models.py`.  The `event_type`
attribute is the fixed literal `"quality_check"` (set unconditionally by
`__init__`), so it is not a field here; `to_dict` emits it directly.  Fields
that Python leaves dynamically typed are `PyVal`s. -/
structure MonitoringPlatformQualityCheck where
  dataset_id : PyVal
  dataset_name : PyVal
  name : PyVal
  category : List (String × PyVal)
  low : PyVal
  value : Option ℚ
  passed : Bool
  at_timestamp : String

/-- The constructor logic of `MonitoringPlatformQualityCheck.__init__`:
`self.category = category or {}` (a `None` or empty dict argument becomes the
empty dict). -/
def initCheck (dataset_id dataset_name name : PyVal)
    (category : Option (List (String × PyVal)))
    (low : PyVal) (value : Option ℚ) (passed : Bool) (at_timestamp : String) :
    MonitoringPlatformQualityCheck :=
  { dataset_id := dataset_id
    dataset_name := dataset_name
    name := name
    category :=
      match category with
      | some es => if es.isEmpty then [] else es
      | Option.none => []
    low := low
    value := value
    passed := passed
    at_timestamp := at_timestamp }

/-- `MonitoringPlatformQualityCheck.to_dict`: build the full payload (with the
`category` sub-object filtered to its non-`None` entries, or `None` when the
`category` attribute is falsy), then drop every top-level key whose value is
`None`. -/
def MonitoringPlatformQualityCheck.to_dict (e : MonitoringPlatformQualityCheck) :
    List (String × PyVal) :=
  ([("event_type", PyVal.str "quality_check"),
    ("dataset_id", e.dataset_id),
    ("dataset_name", e.dataset_name),
    ("name", e.name),
    ("category",
      if e.category.isEmpty then PyVal.none
      else PyVal.dict (([("context", dictGetD e.category "context"),
                         ("category", dictGetD e.category "category")]).filter
                        (fun kv => !kv.2.isNone))),
    ("low", e.low),
    ("value", match e.value with | some q => PyVal.num q | Option.none => PyVal.none),
    ("passed", PyVal.bool e.passed),
    ("@timestamp", PyVal.str e.at_timestamp)]).filter (fun kv => !kv.2.isNone)

/-! ## Calendar and clock model

`to_iso_z` in `src/main.py` leans on the standard `datetime` library (an
external collaborator, modelled here at its interface boundary): UTC datetimes
are represented by their epoch offset in microseconds, and the proleptic
Gregorian field view is computed with the standard civil-from-days /
days-from-civil algorithms.  Wall-clock reads (`datetime.now`) are modelled by
passing the current epoch-microsecond value explicitly. -/

set_option maxHeartbeats 4000000

/-- Year-of-era from day-of-era (`doe < 146097`), proleptic Gregorian. -/
def yoeOfDoe (doe : Nat) : Nat :=
  (doe - doe / 1460 + doe / 36524 - doe / 146096) / 365

/-- Day number (within an era) on which year-of-era `yoe` starts. -/
def startOfYoe (yoe : Nat) : Nat := 365 * yoe + yoe / 4 - yoe / 100

/-- Day-of-year (0-based, March-first calendar) from day-of-era. -/
def doyOfDoe (doe : Nat) : Nat := doe - startOfYoe (yoeOfDoe doe)

/-- Shifted month index (0 = March) from day-of-year. -/
def mpOfDoy (doy : Nat) : Nat := (5 * doy + 2) / 153

/-- Day-of-month (1-based) from day-of-year. -/
def dayOfDoy (doy : Nat) : Nat := doy - (153 * mpOfDoy doy + 2) / 5 + 1

/-- Civil month (1-12) from the shifted month index. -/
def monthOfMp (mp : Nat) : Nat := if mp < 10 then mp + 3 else mp - 9

/-- Era (400-year block) of a day count relative to 1970-01-01. -/
def eraOf (z : Int) : Int := (z + 719468) / 146097

/-- Day-of-era of a day count relative to 1970-01-01. -/
def doeOf (z : Int) : Nat := ((z + 719468) % 146097).toNat

/-- Civil date (year, month, day) of the day that is `z` days after
1970-01-01 in the proleptic Gregorian calendar. -/
def civilFromDays (z : Int) : Int × Nat × Nat :=
  (eraOf z * 400 + yoeOfDoe (doeOf z) +
     (if monthOfMp (mpOfDoy (doyOfDoe (doeOf z))) ≤ 2 then 1 else 0),
   monthOfMp (mpOfDoy (doyOfDoe (doeOf z))),
   dayOfDoy (doyOfDoe (doeOf z)))

/-- Day-of-year (0-based, March-first calendar) of a civil month/day. -/
def doyOfMonthDay (m d : Nat) : Nat :=
  (153 * (if 2 < m then m - 3 else m + 9) + 2) / 5 + d - 1

/-- Number of days from 1970-01-01 to civil date `y-m-d` (proleptic
Gregorian); inverse of `civilFromDays`. -/
def daysFromCivil (y : Int) (m d : Nat) : Int :=
  ((y - (if m ≤ 2 then 1 else 0)) / 400) * 146097 +
    ((startOfYoe ((y - (if m ≤ 2 then 1 else 0)) % 400).toNat + doyOfMonthDay m d : Nat) : Int) -
    719468

/-- A UTC datetime broken into the fields `isoformat` displays (millisecond
precision). -/
structure DT where
  year : Int
  month : Nat
  day : Nat
  hour : Nat
  minute : Nat
  second : Nat
  msec : Nat

/-- Round a rational to the nearest integer, ties to even — the rounding
CPython's `datetime.fromtimestamp` applies at microsecond precision. -/
def rhe (x : ℚ) : Int :=
  if x - ⌊x⌋ < 1 / 2 then ⌊x⌋
  else if 1 / 2 < x - ⌊x⌋ then ⌊x⌋ + 1
  else if ⌊x⌋ % 2 = 0 then ⌊x⌋ else ⌊x⌋ + 1

/-- `datetime.fromtimestamp(secs, tz=timezone.utc)` as an epoch-microsecond
value: seconds scaled to microseconds, rounded half-to-even. -/
def fromtimestampUs (secs : ℚ) : Int := rhe (secs * 1000000)

/-- `datetime.min` (0001-01-01T00:00:00 UTC) as epoch microseconds: the
smallest instant `datetime` can represent. -/
def datetimeMinUs : Int := daysFromCivil 1 1 1 * 86400 * 1000000

/-- `datetime.max` (9999-12-31T23:59:59.999999 UTC) as epoch microseconds:
the largest instant `datetime` can represent. -/
def datetimeMaxUs : Int :=
  (daysFromCivil 9999 12 31 * 86400 + 86399) * 1000000 + 999999

/-- `datetime.fromtimestamp(secs, tz=timezone.utc)`: the half-to-even-rounded
epoch microseconds when the instant lies within `datetime`'s supported years
1-9999, and a raised exception (`ValueError` for a year out of range,
`OverflowError` for extreme magnitudes — modelled together as `valueError`)
otherwise. -/
def fromtimestamp (secs : ℚ) : Except PyErr Int :=
  if fromtimestampUs secs < datetimeMinUs then .error .valueError
  else if datetimeMaxUs < fromtimestampUs secs then .error .valueError
  else .ok (fromtimestampUs secs)

/-- Field view of an epoch-microsecond instant (UTC). -/
def dtOfEpochUs (us : Int) : DT :=
  { year := (civilFromDays ((us / 1000000) / 86400)).1
    month := (civilFromDays ((us / 1000000) / 86400)).2.1
    day := (civilFromDays ((us / 1000000) / 86400)).2.2
    hour := ((us / 1000000) % 86400).toNat / 3600
    minute := ((us / 1000000) % 86400).toNat % 3600 / 60
    second := ((us / 1000000) % 86400).toNat % 60
    msec := (us % 1000000).toNat / 1000 }

/-- Zero-padded decimal rendering. -/
def padNum (w n : Nat) : String :=
  String.mk (List.replicate (w - (Nat.repr n).length) '0') ++ Nat.repr n

/-- `isoformat(timespec="milliseconds")` with `+00:00` replaced by `Z`. -/
def formatDT (dt : DT) : String :=
  padNum 4 dt.year.toNat ++ "-" ++ padNum 2 dt.month ++ "-" ++ padNum 2 dt.day ++
    "T" ++ padNum 2 dt.hour ++ ":" ++ padNum 2 dt.minute ++ ":" ++ padNum 2 dt.second ++
    "." ++ padNum 3 dt.msec ++ "Z"

/-- Render an epoch-microsecond instant the way
`dt.isoformat(timespec="milliseconds").replace("+00:00", "Z")` does. -/
def renderEpochUs (us : Int) : String := formatDT (dtOfEpochUs us)

/-! ## ISO-8601 parsing (`dateutil.parser.isoparse`, modelled at the boundary)

`to_iso_z` hands strings to `dateutil`'s `isoparse`, an external collaborator
that the spec describes only as "a permissive date/time parser".  The model
below accepts the common ISO-8601 shapes (`YYYY[-MM[-DD]]` or `YYYYMMDD`,
optionally `T HH[:MM[:SS[.frac]]]` and a `Z`/`±HH[:]MM`/`±HH` offset) and
rejects everything else. -/

/-- The fields `isoparse` returns: a naive or offset-aware datetime. -/
structure ParsedDT where
  year : Nat
  month : Nat
  day : Nat
  hour : Nat
  minute : Nat
  second : Nat
  usec : Nat
  tzOffsetSecs : Option Int

/-- Decimal value of a digit character. -/
def digitVal (c : Char) : Option Nat :=
  if c.isDigit then some (c.toNat - 48) else Option.none

/-- Read exactly `n` decimal digits, most significant first. -/
def readDigits : Nat → Nat → List Char → Option (Nat × List Char)
  | 0, acc, cs => some (acc, cs)
  | n + 1, acc, c :: cs =>
    match digitVal c with
    | some d => readDigits n (acc * 10 + d) cs
    | Option.none => Option.none
  | _ + 1, _, [] => Option.none

/-- Split a leading run of digits off a character list. -/
def takeDigits : List Char → List Nat × List Char
  | c :: cs =>
    match digitVal c with
    | some d => (d :: (takeDigits cs).1, (takeDigits cs).2)
    | Option.none => ([], c :: cs)
  | [] => ([], [])

/-- Microseconds denoted by a fractional-seconds digit run (first six digits,
right-padded with zeros). -/
def fracToUs (ds : List Nat) : Nat :=
  ((ds.take 6) ++ List.replicate (6 - ds.length) 0).foldl (fun a d => a * 10 + d) 0

/-- Parse a trailing UTC-offset designator (empty, `Z`, `±HH:MM`, `±HHMM`, or
`±HH`), requiring end of input. -/
def parseTz (cs : List Char) : Option (Option Int) :=
  match cs with
  | [] => some Option.none
  | ['Z'] => some (some 0)
  | '+' :: rest => parseTzOffset 1 rest
  | '-' :: rest => parseTzOffset (-1) rest
  | _ => Option.none
where
  parseTzOffset (sign : Int) (cs : List Char) : Option (Option Int) :=
    match readDigits 2 0 cs with
    | some (h, rest) =>
      if h ≤ 23 then
        match rest with
        | [] => some (some (sign * (h * 3600 : Nat)))
        | ':' :: rest2 =>
          match readDigits 2 0 rest2 with
          | some (m, []) =>
            if m ≤ 59 then some (some (sign * ((h * 3600 + m * 60 : Nat) : Int)))
            else Option.none
          | _ => Option.none
        | _ =>
          match readDigits 2 0 rest with
          | some (m, []) =>
            if m ≤ 59 then some (some (sign * ((h * 3600 + m * 60 : Nat) : Int)))
            else Option.none
          | _ => Option.none
      else Option.none
    | Option.none => Option.none

/-- Parse the time-of-day part (after `T`) plus offset. -/
def parseTime (cs : List Char) : Option (Nat × Nat × Nat × Nat × Option Int) :=
  match readDigits 2 0 cs with
  | Option.none => Option.none
  | some (h, r1) =>
    if h ≤ 23 then
      match r1 with
      | ':' :: r2 =>
        match readDigits 2 0 r2 with
        | Option.none => Option.none
        | some (mi, r3) =>
          if mi ≤ 59 then
            match r3 with
            | ':' :: r4 =>
              match readDigits 2 0 r4 with
              | Option.none => Option.none
              | some (s, r5) =>
                if s ≤ 59 then
                  match r5 with
                  | '.' :: r6 =>
                    match takeDigits r6 with
                    | ([], _) => Option.none
                    | (ds, r7) =>
                      match parseTz r7 with
                      | some tz => some (h, mi, s, fracToUs ds, tz)
                      | Option.none => Option.none
                  | _ =>
                    match parseTz r5 with
                    | some tz => some (h, mi, s, 0, tz)
                    | Option.none => Option.none
                else Option.none
            | _ =>
              match parseTz r3 with
              | some tz => some (h, mi, 0, 0, tz)
              | Option.none => Option.none
          else Option.none
      | _ =>
        match parseTz r1 with
        | some tz => some (h, 0, 0, 0, tz)
        | Option.none => Option.none
    else Option.none

/-- Whether `y` is a Gregorian leap year. -/
def isLeap (y : Nat) : Bool := y % 4 = 0 && (y % 100 != 0 || y % 400 = 0)

/-- Days in a month (`datetime` validates the day against this). -/
def daysInMonth (y m : Nat) : Nat :=
  if m = 2 then (if isLeap y then 29 else 28)
  else if m = 4 || m = 6 || m = 9 || m = 11 then 30
  else 31

/-- Parse the date part: `YYYY`, `YYYY-MM`, `YYYY-MM-DD`, or `YYYYMMDD`. -/
def parseDate (cs : List Char) : Option (Nat × Nat × Nat × List Char) :=
  match readDigits 4 0 cs with
  | Option.none => Option.none
  | some (y, r1) =>
    match r1 with
    | '-' :: r2 =>
      match readDigits 2 0 r2 with
      | Option.none => Option.none
      | some (mo, r3) =>
        match r3 with
        | '-' :: r4 =>
          match readDigits 2 0 r4 with
          | Option.none => Option.none
          | some (d, r5) => some (y, mo, d, r5)
        | _ => some (y, mo, 1, r3)
    | c :: _ =>
      if c.isDigit then
        match readDigits 2 0 r1 with
        | Option.none => Option.none
        | some (mo, r2) =>
          match readDigits 2 0 r2 with
          | Option.none => Option.none
          | some (d, r3) => some (y, mo, d, r3)
      else some (y, 1, 1, r1)
    | [] => some (y, 1, 1, [])

/-- `dateutil.parser.isoparse`, modelled: a full date, optionally a `T` and a
time with offset; field ranges validated as `datetime`'s constructor would
(year at least 1, month 1-12, day within the month) — a violation raises
inside `isoparse`, which the caller's handler sees as a parse failure. -/
def isoparse (s : String) : Option ParsedDT :=
  match parseDate s.data with
  | Option.none => Option.none
  | some (y, mo, d, rest) =>
    if 1 ≤ y ∧ 1 ≤ mo ∧ mo ≤ 12 ∧ 1 ≤ d ∧ d ≤ daysInMonth y mo then
      match rest with
      | [] => some ⟨y, mo, d, 0, 0, 0, 0, Option.none⟩
      | 'T' :: tr =>
        match parseTime tr with
        | some (h, mi, sec, us, tz) => some ⟨y, mo, d, h, mi, sec, us, tz⟩
        | Option.none => Option.none
      | _ => Option.none
    else Option.none

/-- The UTC epoch-microsecond instant of a parsed datetime: a missing offset
means the value is already UTC (`dt.replace(tzinfo=timezone.utc)`), an
explicit offset is subtracted (`dt.astimezone(timezone.utc)`). -/
def parsedToUtcUs (p : ParsedDT) : Int :=
  (daysFromCivil (p.year : Int) p.month p.day * 86400 +
      ((p.hour * 3600 + p.minute * 60 + p.second : Nat) : Int) -
      (p.tzOffsetSecs.getD 0)) * 1000000 + (p.usec : Int)

/-- `to_iso_z` from `src/main.py`.  `nowUs` is the wall clock read by
`datetime.now(timezone.utc)` on the fallback paths.  `None` degrades to
"now".  Numerics (Python's `isinstance(ts, (int, float))`, which includes
`bool`) are epoch milliseconds divided by 1000 and handed to
`datetime.fromtimestamp` — a call that sits OUTSIDE the `try` block, so an
out-of-range epoch raises out of `to_iso_z`.  Strings go through `isoparse`
inside the `try` block, with a bare datetime assumed to be UTC; every
exception there (parse failure, or an instant `astimezone`/`isoformat` cannot
represent) is caught and degrades to "now".  Containers fail `isoparse`
inside the `try` block, so they also degrade to "now". -/
def to_iso_z (nowUs : Int) (ts : PyVal) : Except PyErr String :=
  match ts with
  | .none => .ok (renderEpochUs nowUs)
  | .bool b => (fromtimestamp ((if b then 1 else 0) / 1000)).map renderEpochUs
  | .num q => (fromtimestamp (q / 1000)).map renderEpochUs
  | .str s =>
    match isoparse s with
    | some p =>
      if parsedToUtcUs p < datetimeMinUs ∨ datetimeMaxUs < parsedToUtcUs p then
        .ok (renderEpochUs nowUs)
      else .ok (renderEpochUs (parsedToUtcUs p))
    | Option.none => .ok (renderEpochUs nowUs)
  | .list _ => .ok (renderEpochUs nowUs)
  | .dict _ => .ok (renderEpochUs nowUs)

/-! ## The connector (`src/main.py`)

HTTP exchanges are modelled at the boundary: an `Env` maps each request the
connector can make to a `Resp` (`jsonBody` is the parse of the body that
`r.json()` would produce, or `Option.none` when the body is not JSON, in which
case `r.json()` raises).  Event forwarding responses are indexed by the number
of events forwarded so far.  Each operation returns its result (with raised
exceptions as `Except.error`) together with the list of network calls it
performed. -/

/-- An HTTP response at the interface boundary.  `ok` mirrors `requests`'
`Response.ok` (status below 400); `raise_for_status` raises exactly when `ok`
is false. -/
structure Resp where
  status : Nat
  text : String
  jsonBody : Option PyVal

/-- `r.ok` from `requests`. -/
def Resp.ok (r : Resp) : Bool := r.status < 400

/-- The remote services: dataset-metadata reads, quality-evaluation triggers,
and monitoring-platform event forwards (indexed by how many events were
forwarded before). -/
structure Env where
  fetchResp : String → Resp
  evalResp : String → String → Resp
  forwardResp : Nat → Resp

/-- One network call, for the run trace.  URL strings are determined by the
configured base URLs plus the identifiers recorded here; the evaluation
trigger's `outputPath` query parameter (a server-side filename hint built from
the pair ids and a wall-clock stamp) does not affect control flow and is not
recorded. -/
inductive NetCall where
  | fetchDataset (dsId : String)
  | evalQuality (dsId : String) (critId : String)
  | postEvent (payload : List (String × PyVal))

/-- Raised exceptions that can escape the connector's operations. -/
inductive RunErr where
  | httpError (status : Nat)
  | jsonError
  | missingAuth
  | pyError (e : PyErr)

/-- Connector configuration (`FeastDQOnlyConnector.__init__`).  The base URLs
only shape request URLs, which the trace records through identifiers, so they
are not modelled. -/
structure Config where
  criteria_ids : List String
  dataset_ids : List String
  logstash_basic_auth : Option String

/-- `_resolve_logstash_basic`: the trimmed token, or a configuration error
when it is absent/blank. -/
def resolveLogstashBasic (auth : Option String) : Except RunErr String :=
  match pyOpt auth with
  | some t => .ok t
  | Option.none => .error .missingAuth

/-- `fetch_dataset_name`: GET the dataset metadata; on a success status with a
non-empty body, parse it (`r.json()` raises on a non-JSON body) and return
`j.get("title") or j.get("name")`; otherwise return `None`. -/
def fetchDatasetName (env : Env) (dsId : String) : Except RunErr PyVal × List NetCall :=
  if (env.fetchResp dsId).ok && (env.fetchResp dsId).text != "" then
    match (env.fetchResp dsId).jsonBody with
    | Option.none => (.error .jsonError, [NetCall.fetchDataset dsId])
    | some j =>
      match pyGet j "title" with
      | .error e => (.error (.pyError e), [NetCall.fetchDataset dsId])
      | .ok t =>
        if pyTruthy t then (.ok t, [NetCall.fetchDataset dsId])
        else
          match pyGet j "name" with
          | .error e => (.error (.pyError e), [NetCall.fetchDataset dsId])
          | .ok n => (.ok n, [NetCall.fetchDataset dsId])
  else (.ok .none, [NetCall.fetchDataset dsId])

/-- `evaluate_quality`: POST the quality trigger; a non-success status raises
(`raise_for_status`), then the report JSON is returned (`r.json()` raises on a
non-JSON body). -/
def evaluateQuality (env : Env) (dsId critId : String) : Except RunErr PyVal × List NetCall :=
  if (env.evalResp dsId critId).ok then
    match (env.evalResp dsId critId).jsonBody with
    | some j => (.ok j, [NetCall.evalQuality dsId critId])
    | Option.none => (.error .jsonError, [NetCall.evalQuality dsId critId])
  else (.error (.httpError (env.evalResp dsId critId).status), [NetCall.evalQuality dsId critId])

/-- `send_event`: serialize the event, resolve the Basic-auth token (raising
a configuration error, with no network call, when it is absent), POST the
payload, then `raise_for_status`. -/
def sendEvent (cfg : Config) (env : Env) (eventsSoFar : Nat)
    (evt : MonitoringPlatformQualityCheck) : Except RunErr Unit × List NetCall :=
  match resolveLogstashBasic cfg.logstash_basic_auth with
  | .error e => (.error e, [])
  | .ok _tok =>
    if (env.forwardResp eventsSoFar).ok then (.ok (), [NetCall.postEvent evt.to_dict])
    else (.error (.httpError (env.forwardResp eventsSoFar).status),
          [NetCall.postEvent evt.to_dict])

/-- The event construction in `run_once`'s result loop (`src/main.py` lines
117-127): `cat = res.get("category") or {}`, then the
`MonitoringPlatformQualityCheck(...)` call with its arguments evaluated in
order. -/
def buildEvent (dsId : String) (dsName : PyVal) (isoTs : String)
    (report res : PyVal) : Except RunErr MonitoringPlatformQualityCheck :=
  match pyGet res "category" with
  | .error e => .error (.pyError e)
  | .ok catv =>
    match pyGet report "datasetId" with
    | .error e => .error (.pyError e)
    | .ok rid =>
      match pyGet res "name" with
      | .error e => .error (.pyError e)
      | .ok nm =>
        match pyGet (pyOr catv (.dict [])) "context" with
        | .error e => .error (.pyError e)
        | .ok ctx =>
          match pyGet (pyOr catv (.dict [])) "category" with
          | .error e => .error (.pyError e)
          | .ok cc =>
            match pyGet res "low" with
            | .error e => .error (.pyError e)
            | .ok lowv =>
              match pyGet res "value" with
              | .error e => .error (.pyError e)
              | .ok valv =>
                match
                  (match valv with
                   | .none => Except.ok (Option.none : Option ℚ)
                   | v => (pyFloat v).map some) with
                | .error e => .error (.pyError e)
                | .ok vopt =>
                  match pyGet res "passed" with
                  | .error e => .error (.pyError e)
                  | .ok pv =>
                    .ok (initCheck (pyOr rid (.str dsId)) dsName nm
                          (some [("context", ctx), ("category", cc)])
                          lowv vopt (pyTruthy pv) isoTs)

/-- The innermost loop of `run_once`: build and forward one event per result
row, accumulating the total event count (which also indexes forwarding
responses) and the network calls; the first raised exception aborts. -/
def processResults (cfg : Config) (env : Env) (dsId : String) (dsName : PyVal)
    (isoTs : String) (report : PyVal) :
    List PyVal → Nat → Except RunErr Nat × List NetCall
  | [], events => (.ok events, [])
  | res :: rest, events =>
    match buildEvent dsId dsName isoTs report res with
    | .error e => (.error e, [])
    | .ok evt =>
      match sendEvent cfg env events evt with
      | (.error e, c) => (.error e, c)
      | (.ok _, c) =>
        let (r, c2) := processResults cfg env dsId dsName isoTs report rest (events + 1)
        (r, c ++ c2)

/-- One (dataset, criteria) pair of `run_once`: trigger evaluation, normalize
the report's `issued` timestamp once (a raising normalizer — an out-of-range
numeric `issued` — aborts the pair), collect `report.get("results") or []`,
and process every result row. -/
def processPair (cfg : Config) (env : Env) (nowUs : Int) (dsId : String)
    (dsName : PyVal) (critId : String) (events : Nat) :
    Except RunErr Nat × List NetCall :=
  match evaluateQuality env dsId critId with
  | (.error e, c) => (.error e, c)
  | (.ok report, c) =>
    match pyGet report "issued" with
    | .error e => (.error (.pyError e), c)
    | .ok issued =>
      match to_iso_z nowUs issued with
      | .error e => (.error (.pyError e), c)
      | .ok isoTs =>
      match pyGet report "results" with
      | .error e => (.error (.pyError e), c)
      | .ok rv =>
        match toPyList (pyOr rv (.list [])) with
        | .error e => (.error (.pyError e), c)
        | .ok results =>
          let (r, c2) := processResults cfg env dsId dsName isoTs report results events
          (r, c ++ c2)

/-- The criteria loop of `run_once` for one dataset: the pair counter is
incremented before each evaluation is triggered. -/
def runCriteria (cfg : Config) (env : Env) (nowUs : Int) (dsId : String)
    (dsName : PyVal) :
    List String → Nat → Nat → Except RunErr (Nat × Nat) × List NetCall
  | [], pairs, events => (.ok (pairs, events), [])
  | critId :: rest, pairs, events =>
    match processPair cfg env nowUs dsId dsName critId events with
    | (.error e, c) => (.error e, c)
    | (.ok events2, c) =>
      let (r, c2) := runCriteria cfg env nowUs dsId dsName rest (pairs + 1) events2
      (r, c ++ c2)

/-- The dataset loop of `run_once`: resolve the display name once per dataset
(its failure modes are `fetch_dataset_name`'s own), then run every criteria. -/
def runDatasets (cfg : Config) (env : Env) (nowUs : Int) :
    List String → Nat → Nat → Except RunErr (Nat × Nat) × List NetCall
  | [], pairs, events => (.ok (pairs, events), [])
  | dsId :: rest, pairs, events =>
    match fetchDatasetName env dsId with
    | (.error e, c) => (.error e, c)
    | (.ok dsName, c) =>
      match runCriteria cfg env nowUs dsId dsName cfg.criteria_ids pairs events with
      | (.error e, c2) => (.error e, c ++ c2)
      | (.ok (pairs2, events2), c2) =>
        let (r, c3) := runDatasets cfg env nowUs rest pairs2 events2
        (r, c ++ c2 ++ c3)

/-- `run_once`: the full nested batch over all configured (dataset, criteria)
pairs, returning the final (pairs, events) counters or the first raised
exception, together with the network-call trace. -/
def runOnce (cfg : Config) (env : Env) (nowUs : Int) :
    Except RunErr (Nat × Nat) × List NetCall :=
  runDatasets cfg env nowUs cfg.dataset_ids 0 0

/-! ## Calendar lemmas -/

section ModelChecks

example :
    (initCheck (PyVal.str "d") PyVal.none PyVal.none
        (some [("context", PyVal.none), ("category", PyVal.none)])
        PyVal.none Option.none true "t").to_dict =
      [("event_type", PyVal.str "quality_check"),
       ("dataset_id", PyVal.str "d"),
       ("category", PyVal.dict []),
       ("passed", PyVal.bool true),
       ("@timestamp", PyVal.str "t")] := rfl

example : pyOpt (some "  ") = Option.none := rfl

-- 2024-02-29T12:34:56.789Z = epoch ms 1709210096789
example : renderEpochUs (1709210096789 * 1000) = "2024-02-29T12:34:56.789Z" := rfl

example : civilFromDays 0 = (1970, 1, 1) := rfl
example : civilFromDays (-1) = (1969, 12, 31) := rfl
example : daysFromCivil 1969 12 31 = -1 := rfl

example : isoparse "not-a-date" = Option.none := rfl

example : to_iso_z 0 (PyVal.str "2024-01-01T00:00:00") =
    .ok "2024-01-01T00:00:00.000Z" := by
  rfl

example : to_iso_z 0 (PyVal.str "2024-01-01T01:00:00+01:00") =
    .ok "2024-01-01T00:00:00.000Z" := by
  rfl

example :
    runOnce
      { criteria_ids := ["c1"], dataset_ids := ["d1"], logstash_basic_auth := some "tok" }
      { fetchResp := fun _ => ⟨200, "b", some (PyVal.dict [("title", PyVal.str "DS")])⟩
        evalResp := fun _ _ =>
          ⟨200, "b", some (PyVal.dict
            [("issued", PyVal.str "2024-01-01T00:00:00"),
             ("results", PyVal.list [PyVal.dict
               [("name", PyVal.str "r1"), ("value", PyVal.num 1), ("passed", PyVal.bool true)]])])⟩
        forwardResp := fun _ => ⟨200, "", Option.none⟩ } 0 =
    (Except.ok (1, 1),
     [NetCall.fetchDataset "d1", NetCall.evalQuality "d1" "c1",
      NetCall.postEvent
        [("event_type", PyVal.str "quality_check"),
         ("dataset_id", PyVal.str "d1"),
         ("dataset_name", PyVal.str "DS"),
         ("name", PyVal.str "r1"),
         ("category", PyVal.dict []),
         ("value", PyVal.num 1),
         ("passed", PyVal.bool true),
         ("@timestamp", PyVal.str "2024-01-01T00:00:00.000Z")]]) := by
  rfl

end ModelChecks

/-! ## Serialization lemmas -/

/-- Looking a key up in a filtered association list skips an entry with a
different key, whether or not the filter keeps it. -/
lemma lookup_filter_cons_ne (p : String × PyVal → Bool) (k a : String) (v : PyVal)
    (l : List (String × PyVal)) (hk : (k == a) = false) :
    (((a, v) :: l).filter p).lookup k = (l.filter p).lookup k := by
  cases hp : p (a, v) <;> simp [List.filter_cons, hp, List.lookup, hk]

/-- Looking a key up in a filtered association list hits a kept head entry
with that key. -/
lemma lookup_filter_cons_self (p : String × PyVal → Bool) (k : String) (v : PyVal)
    (l : List (String × PyVal)) (hp : p (k, v) = true) :
    (((k, v) :: l).filter p).lookup k = some v := by
  simp [List.filter_cons, hp, List.lookup]

/-- Looking a key up in a filtered association list skips a dropped head
entry. -/
lemma lookup_filter_cons_drop (p : String × PyVal → Bool) (k a : String) (v : PyVal)
    (l : List (String × PyVal)) (hp : p (a, v) = false) :
    (((a, v) :: l).filter p).lookup k = (l.filter p).lookup k := by
  simp [List.filter_cons, hp]

/-- `to_dict` always carries the fixed `event_type` marker. -/
lemma to_dict_lookup_event_type (e : MonitoringPlatformQualityCheck) :
    (e.to_dict).lookup "event_type" = some (PyVal.str "quality_check") := by
  unfold MonitoringPlatformQualityCheck.to_dict
  rw [lookup_filter_cons_self]
  rfl

/-- `to_dict` keeps a non-`None` `dataset_id`. -/
lemma to_dict_lookup_dataset_id (e : MonitoringPlatformQualityCheck)
    (h : e.dataset_id.isNone = false) :
    (e.to_dict).lookup "dataset_id" = some e.dataset_id := by
  unfold MonitoringPlatformQualityCheck.to_dict
  rw [lookup_filter_cons_ne, lookup_filter_cons_self]
  · simp [h]
  · rfl

/-- `to_dict` always carries `passed` as a boolean. -/
lemma to_dict_lookup_passed (e : MonitoringPlatformQualityCheck) :
    (e.to_dict).lookup "passed" = some (PyVal.bool e.passed) := by
  unfold MonitoringPlatformQualityCheck.to_dict
  rw [lookup_filter_cons_ne, lookup_filter_cons_ne, lookup_filter_cons_ne,
      lookup_filter_cons_ne, lookup_filter_cons_ne, lookup_filter_cons_ne,
      lookup_filter_cons_ne, lookup_filter_cons_self] <;> rfl

/-- `to_dict` drops `low` when the attribute is `None`. -/
lemma to_dict_lookup_low_none (e : MonitoringPlatformQualityCheck)
    (h : e.low = PyVal.none) :
    (e.to_dict).lookup "low" = Option.none := by
  unfold MonitoringPlatformQualityCheck.to_dict
  rw [lookup_filter_cons_ne, lookup_filter_cons_ne, lookup_filter_cons_ne,
      lookup_filter_cons_ne, lookup_filter_cons_ne, lookup_filter_cons_drop,
      lookup_filter_cons_ne, lookup_filter_cons_ne, lookup_filter_cons_ne] <;>
    first | rfl | simp [h, PyVal.isNone]

/-- `to_dict` drops `value` when the attribute is `None`. -/
lemma to_dict_lookup_value_none (e : MonitoringPlatformQualityCheck)
    (h : e.value = Option.none) :
    (e.to_dict).lookup "value" = Option.none := by
  unfold MonitoringPlatformQualityCheck.to_dict
  rw [lookup_filter_cons_ne, lookup_filter_cons_ne, lookup_filter_cons_ne,
      lookup_filter_cons_ne, lookup_filter_cons_ne, lookup_filter_cons_ne,
      lookup_filter_cons_drop, lookup_filter_cons_ne, lookup_filter_cons_ne] <;>
    first | rfl | simp [h, PyVal.isNone]

/-- `to_dict` omits the `category` key when the `category` attribute is empty
(falsy). -/
lemma to_dict_lookup_category_empty (e : MonitoringPlatformQualityCheck)
    (h : e.category.isEmpty = true) :
    (e.to_dict).lookup "category" = Option.none := by
  unfold MonitoringPlatformQualityCheck.to_dict
  rw [lookup_filter_cons_ne, lookup_filter_cons_ne, lookup_filter_cons_ne,
      lookup_filter_cons_ne, lookup_filter_cons_drop,
      lookup_filter_cons_ne, lookup_filter_cons_ne, lookup_filter_cons_ne,
      lookup_filter_cons_ne] <;>
    first | rfl | simp [h, PyVal.isNone]

/-- `to_dict` keeps the `category` key as the filtered sub-object whenever the
`category` attribute is non-empty (truthy). -/
lemma to_dict_lookup_category_nonempty (e : MonitoringPlatformQualityCheck)
    (h : e.category.isEmpty = false) :
    (e.to_dict).lookup "category" =
      some (PyVal.dict (([("context", dictGetD e.category "context"),
                          ("category", dictGetD e.category "category")]).filter
                         (fun kv => !kv.2.isNone))) := by
  unfold MonitoringPlatformQualityCheck.to_dict
  rw [lookup_filter_cons_ne, lookup_filter_cons_ne, lookup_filter_cons_ne,
      lookup_filter_cons_ne, lookup_filter_cons_self] <;>
    first | rfl | simp [h, PyVal.isNone]

/-- No entry of a serialized event has a `None` value (the final filter). -/
lemma to_dict_no_none_value (e : MonitoringPlatformQualityCheck) :
    ∀ kv ∈ e.to_dict, kv.2.isNone = false := by
  intro kv hkv
  have h := List.of_mem_filter hkv
  simpa using h

/-- `a or b` with a non-`None` string fallback is never `None`. -/
lemma isNone_pyOr_str (a : PyVal) (s : String) : (pyOr a (.str s)).isNone = false := by
  unfold pyOr
  split
  · cases a <;> first | rfl | simp_all [pyTruthy]
  · rfl

/-- Inversion of a successful `buildEvent`: every dynamic access succeeded and
the event is the `initCheck` of the accessed values. -/
lemma buildEvent_ok_inv {dsId : String} {dsName : PyVal} {isoTs : String}
    {report res : PyVal} {evt : MonitoringPlatformQualityCheck}
    (hb : buildEvent dsId dsName isoTs report res = .ok evt) :
    ∃ catv rid nm ctx cc lowv vopt pv,
      pyGet res "category" = .ok catv ∧
      pyGet report "datasetId" = .ok rid ∧
      pyGet res "name" = .ok nm ∧
      pyGet (pyOr catv (.dict [])) "context" = .ok ctx ∧
      pyGet (pyOr catv (.dict [])) "category" = .ok cc ∧
      pyGet res "low" = .ok lowv ∧
      pyGet res "passed" = .ok pv ∧
      evt = initCheck (pyOr rid (.str dsId)) dsName nm
              (some [("context", ctx), ("category", cc)]) lowv vopt (pyTruthy pv) isoTs := by
  unfold buildEvent at hb
  repeat' split at hb
  all_goals cases hb
  exact ⟨_, _, _, _, _, _, _, _, by assumption, by assumption, by assumption, by assumption,
    by assumption, by assumption, by assumption, rfl⟩

/-! ## Claim theorems -/

/-- Claim C1, counterexample: for an event whose category object has both
sub-fields `None` (`category={"context": None, "category": None}`), `to_dict`
does NOT omit the `category` key — the two-entry dict is truthy, so the key is
kept with an empty object value. -/
theorem category_both_null_not_omitted :
    ({ dataset_id := PyVal.str "d1", dataset_name := PyVal.none, name := PyVal.none,
       category := [("context", PyVal.none), ("category", PyVal.none)],
       low := PyVal.none, value := Option.none, passed := true, at_timestamp := "t" } :
      MonitoringPlatformQualityCheck).to_dict.lookup "category" =
      some (PyVal.dict []) := rfl

/-- Claim C1, amended: `to_dict` omits the `category` key exactly when the
`category` attribute is falsy (`None` or empty); with both sub-fields `None`
but a non-empty category object the serialized `category` is the empty object;
and when exactly one sub-field is non-`None` the serialized `category`
contains only that sub-field. -/
theorem category_subfield_serialization (e : MonitoringPlatformQualityCheck) :
    (e.to_dict.lookup "category" = Option.none ↔ e.category.isEmpty = true) ∧
    (e.category.isEmpty = false → dictGetD e.category "context" = PyVal.none →
      dictGetD e.category "category" = PyVal.none →
      e.to_dict.lookup "category" = some (PyVal.dict [])) ∧
    (∀ v : PyVal, v.isNone = false → e.category.isEmpty = false →
      dictGetD e.category "context" = v → dictGetD e.category "category" = PyVal.none →
      e.to_dict.lookup "category" = some (PyVal.dict [("context", v)])) ∧
    (∀ v : PyVal, v.isNone = false → e.category.isEmpty = false →
      dictGetD e.category "context" = PyVal.none → dictGetD e.category "category" = v →
      e.to_dict.lookup "category" = some (PyVal.dict [("category", v)])) := by
  refine ⟨?_, ?_, ?_, ?_⟩
  · cases hc : e.category.isEmpty
    · simp [to_dict_lookup_category_nonempty e hc]
    · simp [to_dict_lookup_category_empty e hc]
  · intro hc h1 h2
    rw [to_dict_lookup_category_nonempty e hc, h1, h2]
    rfl
  · intro v hv hc h1 h2
    rw [to_dict_lookup_category_nonempty e hc, h1, h2]
    cases v <;> simp_all [PyVal.isNone]
  · intro v hv hc h1 h2
    rw [to_dict_lookup_category_nonempty e hc, h1, h2]
    cases v <;> simp_all [PyVal.isNone]

/-- Claim C1, witness: the amended statement at a concrete event with
`context = "c1"` and `category = None` keeps only the `context` sub-field. -/
theorem category_subfield_serialization_witness :
    ({ dataset_id := PyVal.str "d1", dataset_name := PyVal.none, name := PyVal.none,
       category := [("context", PyVal.str "c1"), ("category", PyVal.none)],
       low := PyVal.none, value := Option.none, passed := true, at_timestamp := "t" } :
      MonitoringPlatformQualityCheck).to_dict.lookup "category" =
      some (PyVal.dict [("context", PyVal.str "c1")]) :=
  (category_subfield_serialization _).2.2.1 (PyVal.str "c1") rfl rfl rfl rfl

/-- Claim C2, counterexample: a success response with a non-empty body that is
not parseable JSON makes `fetch_dataset_name` raise (`r.json()` is not inside
any handler), instead of returning `None`. -/
theorem fetch_dataset_name_unparseable_body_raises :
    fetchDatasetName
      { fetchResp := fun _ => { status := 200, text := "not json", jsonBody := Option.none },
        evalResp := fun _ _ => { status := 200, text := "", jsonBody := Option.none },
        forwardResp := fun _ => { status := 200, text := "", jsonBody := Option.none } }
      "d1" =
      (Except.error RunErr.jsonError, [NetCall.fetchDataset "d1"]) := rfl

/-- Claim C2, amended: `fetch_dataset_name` returns `None` (without raising,
so the run continues) on a non-success response or an empty body; on a success
response with a parseable body it returns the `title` field when that is
truthy and otherwise falls back to the `name` field; a success response whose
non-empty body is not parseable JSON raises instead. -/
theorem fetch_dataset_name_outcomes (env : Env) (dsId : String) :
    (((env.fetchResp dsId).ok && (env.fetchResp dsId).text != "") = false →
       fetchDatasetName env dsId = (.ok PyVal.none, [NetCall.fetchDataset dsId])) ∧
    (∀ j t, ((env.fetchResp dsId).ok && (env.fetchResp dsId).text != "") = true →
       (env.fetchResp dsId).jsonBody = some j →
       pyGet j "title" = .ok t → pyTruthy t = true →
       fetchDatasetName env dsId = (.ok t, [NetCall.fetchDataset dsId])) ∧
    (∀ j t n, ((env.fetchResp dsId).ok && (env.fetchResp dsId).text != "") = true →
       (env.fetchResp dsId).jsonBody = some j →
       pyGet j "title" = .ok t → pyTruthy t = false →
       pyGet j "name" = .ok n →
       fetchDatasetName env dsId = (.ok n, [NetCall.fetchDataset dsId])) := by
  refine ⟨?_, ?_, ?_⟩
  · intro h
    unfold fetchDatasetName
    simp [h]
  · intro j t h hj ht htr
    unfold fetchDatasetName
    simp [h, hj, ht, htr]
  · intro j t n h hj ht htr hn
    unfold fetchDatasetName
    simp [h, hj, ht, htr, hn]

/-- Claim C2, witness: the amended statement applied to a 404 response (null,
no error) and to a success response carrying both `title` and `name` (title
preferred). -/
theorem fetch_dataset_name_outcomes_witness :
    fetchDatasetName
        { fetchResp := fun _ => { status := 404, text := "e", jsonBody := Option.none },
          evalResp := fun _ _ => { status := 200, text := "", jsonBody := Option.none },
          forwardResp := fun _ => { status := 200, text := "", jsonBody := Option.none } }
        "d1" = (.ok PyVal.none, [NetCall.fetchDataset "d1"]) ∧
    fetchDatasetName
        { fetchResp := fun _ =>
            { status := 200, text := "b",
              jsonBody := some (PyVal.dict
                [("title", PyVal.str "T"), ("name", PyVal.str "N")]) },
          evalResp := fun _ _ => { status := 200, text := "", jsonBody := Option.none },
          forwardResp := fun _ => { status := 200, text := "", jsonBody := Option.none } }
        "d1" = (.ok (PyVal.str "T"), [NetCall.fetchDataset "d1"]) :=
  ⟨(fetch_dataset_name_outcomes _ "d1").1 rfl,
   (fetch_dataset_name_outcomes _ "d1").2.1
     (PyVal.dict [("title", PyVal.str "T"), ("name", PyVal.str "N")])
     (PyVal.str "T") rfl rfl rfl rfl⟩

/-- Claim C3: a serialized event never carries a top-level `None` value;
`event_type`, `dataset_id` (never `None` for events built by `run_once`), and
boolean `passed` are always present; and a `None` `low` or `value` attribute
leaves no `low`/`value` key. -/
theorem to_dict_no_null_fields (dsId : String) (dsName : PyVal) (isoTs : String)
    (report res : PyVal) (evt : MonitoringPlatformQualityCheck)
    (hb : buildEvent dsId dsName isoTs report res = .ok evt) :
    (∀ kv ∈ evt.to_dict, kv.2.isNone = false) ∧
    evt.to_dict.lookup "event_type" = some (PyVal.str "quality_check") ∧
    evt.to_dict.lookup "dataset_id" = some evt.dataset_id ∧
    evt.dataset_id.isNone = false ∧
    evt.to_dict.lookup "passed" = some (PyVal.bool evt.passed) ∧
    (evt.low = PyVal.none → evt.to_dict.lookup "low" = Option.none) ∧
    (evt.value = Option.none → evt.to_dict.lookup "value" = Option.none) := by
  obtain ⟨catv, rid, nm, ctx, cc, lowv, vopt, pv, h1, h2, h3, h4, h5, h6, h7, he⟩ :=
    buildEvent_ok_inv hb
  have hid : evt.dataset_id.isNone = false := by
    rw [he]
    exact isNone_pyOr_str rid dsId
  exact ⟨to_dict_no_none_value evt, to_dict_lookup_event_type evt,
    to_dict_lookup_dataset_id evt hid, hid, to_dict_lookup_passed evt,
    fun h => to_dict_lookup_low_none evt h, fun h => to_dict_lookup_value_none evt h⟩

/-- Claim C3, witness: at a concrete result row with `low` and `value` absent,
the serialized event has no `low`/`value` keys while `passed` is present. -/
theorem to_dict_no_null_fields_witness :
    (initCheck (PyVal.str "d1") PyVal.none PyVal.none
        (some [("context", PyVal.none), ("category", PyVal.none)]) PyVal.none Option.none
        false "t").to_dict.lookup "low" = Option.none ∧
    (initCheck (PyVal.str "d1") PyVal.none PyVal.none
        (some [("context", PyVal.none), ("category", PyVal.none)]) PyVal.none Option.none
        false "t").to_dict.lookup "value" = Option.none ∧
    (initCheck (PyVal.str "d1") PyVal.none PyVal.none
        (some [("context", PyVal.none), ("category", PyVal.none)]) PyVal.none Option.none
        false "t").to_dict.lookup "passed" = some (PyVal.bool false) :=
  ⟨(to_dict_no_null_fields "d1" PyVal.none "t" (PyVal.dict []) (PyVal.dict []) _
      rfl).2.2.2.2.2.1 rfl,
   (to_dict_no_null_fields "d1" PyVal.none "t" (PyVal.dict []) (PyVal.dict []) _
      rfl).2.2.2.2.2.2 rfl,
   (to_dict_no_null_fields "d1" PyVal.none "t" (PyVal.dict []) (PyVal.dict []) _
      rfl).2.2.2.2.1⟩

/-- Claim C4, counterexample: a report whose `datasetId` field is present but
empty (`""`) does NOT source the event's `dataset_id` from the report — the
truthiness-based `or` falls back to the requested dataset id. -/
theorem event_dataset_id_present_empty_ignored :
    (buildEvent "d1" PyVal.none "t" (PyVal.dict [("datasetId", PyVal.str "")])
        (PyVal.dict [])).map MonitoringPlatformQualityCheck.dataset_id =
      Except.ok (PyVal.str "d1") := rfl

/-- Claim C4, amended: the event's `dataset_id` is the report's `datasetId`
value when that value is truthy (non-null, non-empty), and otherwise the
requested dataset id — `report.get("datasetId") or ds_id`. -/
theorem event_dataset_id_source (dsId : String) (dsName : PyVal) (isoTs : String)
    (report res rid : PyVal) (evt : MonitoringPlatformQualityCheck)
    (hr : pyGet report "datasetId" = .ok rid)
    (hb : buildEvent dsId dsName isoTs report res = .ok evt) :
    evt.dataset_id = pyOr rid (PyVal.str dsId) := by
  obtain ⟨catv, rid2, nm, ctx, cc, lowv, vopt, pv, h1, h2, h3, h4, h5, h6, h7, he⟩ :=
    buildEvent_ok_inv hb
  have hrid : rid2 = rid := by
    rw [hr] at h2
    injection h2 with h
    exact h.symm
  subst hrid
  subst he
  rfl

/-- Claim C4, witness: with a truthy report `datasetId` of `"D"`, the built
event's `dataset_id` is `"D" or "d1"`. -/
theorem event_dataset_id_source_witness :
    (initCheck (PyVal.str "D") PyVal.none PyVal.none
        (some [("context", PyVal.none), ("category", PyVal.none)]) PyVal.none Option.none
        false "t").dataset_id = pyOr (PyVal.str "D") (PyVal.str "d1") :=
  event_dataset_id_source "d1" PyVal.none "t"
    (PyVal.dict [("datasetId", PyVal.str "D")]) (PyVal.dict []) (PyVal.str "D")
    (initCheck (PyVal.str "D") PyVal.none PyVal.none
      (some [("context", PyVal.none), ("category", PyVal.none)]) PyVal.none Option.none
      false "t") rfl rfl

/-- Claim C5: a non-success status on the quality-evaluation trigger aborts
the pair immediately (error, no further calls), and a non-success status on
the first forwarded event aborts the whole run with an error, the trace ending
at that POST — no remaining result rows, criteria, or datasets are attempted. -/
theorem nonsuccess_status_aborts_run (cfg : Config) (env : Env) (nowUs : Int) :
    (∀ dsId critId dsName events, (env.evalResp dsId critId).ok = false →
       processPair cfg env nowUs dsId dsName critId events =
         (.error (RunErr.httpError (env.evalResp dsId critId).status),
          [NetCall.evalQuality dsId critId])) ∧
    (∀ d1 restD c1 restC nmv fc report iv isoTs row rest evt tok,
       cfg.dataset_ids = d1 :: restD →
       cfg.criteria_ids = c1 :: restC →
       fetchDatasetName env d1 = (.ok nmv, fc) →
       (env.evalResp d1 c1).ok = true →
       (env.evalResp d1 c1).jsonBody = some report →
       pyGet report "issued" = .ok iv →
       to_iso_z nowUs iv = .ok isoTs →
       pyGet report "results" = .ok (PyVal.list (row :: rest)) →
       buildEvent d1 nmv isoTs report row = .ok evt →
       pyOpt cfg.logstash_basic_auth = some tok →
       (env.forwardResp 0).ok = false →
       runOnce cfg env nowUs =
         (.error (RunErr.httpError (env.forwardResp 0).status),
          fc ++ [NetCall.evalQuality d1 c1, NetCall.postEvent evt.to_dict])) := by
  constructor
  · intro dsId critId dsName events h
    unfold processPair evaluateQuality
    simp [h]
  · intro d1 restD c1 restC nmv fc report iv isoTs row rest evt tok hd hc hf hok hj hiss
      hts hres hb hauth hfwd
    unfold runOnce
    simp [hd, hc, runDatasets, runCriteria, processPair, evaluateQuality, processResults,
      sendEvent, resolveLogstashBasic, toPyList, pyOr, pyTruthy, hf, hok, hj, hiss, hts,
      hres, hb, hauth, hfwd]

/-- Claim C5, witness: an HTTP 500 on the first forwarded event ends the run
with an error after exactly one fetch, one evaluation, and one POST. -/
theorem nonsuccess_status_aborts_run_witness :
    runOnce
      { criteria_ids := ["c1"], dataset_ids := ["d1", "d2"],
        logstash_basic_auth := some "tok" }
      { fetchResp := fun _ =>
          { status := 200, text := "b", jsonBody := some (PyVal.dict []) },
        evalResp := fun _ _ =>
          { status := 200, text := "b",
            jsonBody := some (PyVal.dict
              [("issued", PyVal.none), ("results", PyVal.list [PyVal.dict []])]) },
        forwardResp := fun _ => { status := 500, text := "", jsonBody := Option.none } }
      0 =
    (.error (RunErr.httpError 500),
     [NetCall.fetchDataset "d1", NetCall.evalQuality "d1" "c1",
      NetCall.postEvent
        (initCheck (PyVal.str "d1") PyVal.none PyVal.none
          (some [("context", PyVal.none), ("category", PyVal.none)]) PyVal.none Option.none
          false (renderEpochUs 0)).to_dict]) :=
  (nonsuccess_status_aborts_run _ _ 0).2 "d1" ["d2"] "c1" [] PyVal.none
    [NetCall.fetchDataset "d1"]
    (PyVal.dict [("issued", PyVal.none), ("results", PyVal.list [PyVal.dict []])])
    PyVal.none (renderEpochUs 0) (PyVal.dict []) []
    (initCheck (PyVal.str "d1") PyVal.none PyVal.none
      (some [("context", PyVal.none), ("category", PyVal.none)]) PyVal.none Option.none
      false (renderEpochUs 0)) "tok"
    rfl rfl rfl rfl rfl rfl rfl rfl rfl rfl rfl

/-- Claim C6: when the Basic-auth token is absent (null, empty, or
whitespace-only, i.e. `_opt` yields `None`), `send_event` fails with the
configuration error and performs no network call at all — the header
resolution raises before the POST is issued. -/
theorem send_event_missing_token_no_network (cfg : Config) (env : Env) (events : Nat)
    (evt : MonitoringPlatformQualityCheck)
    (h : pyOpt cfg.logstash_basic_auth = Option.none) :
    sendEvent cfg env events evt = (.error RunErr.missingAuth, []) := by
  unfold sendEvent resolveLogstashBasic
  rw [h]

/-- Claim C6, witness: a whitespace-only token trips the configuration error
with an empty network trace. -/
theorem send_event_missing_token_no_network_witness :
    sendEvent
      { criteria_ids := ["c1"], dataset_ids := ["d1"], logstash_basic_auth := some " " }
      { fetchResp := fun _ => { status := 200, text := "", jsonBody := Option.none },
        evalResp := fun _ _ => { status := 200, text := "", jsonBody := Option.none },
        forwardResp := fun _ => { status := 200, text := "", jsonBody := Option.none } }
      0
      (initCheck (PyVal.str "d1") PyVal.none PyVal.none
        (some [("context", PyVal.none), ("category", PyVal.none)]) PyVal.none Option.none
        false "t") =
      (.error RunErr.missingAuth, []) :=
  send_event_missing_token_no_network _ _ 0 _ rfl

/-- Claim C7: `to_iso_z` on a string `isoparse` cannot parse does not raise —
it returns (as a non-exceptional value) the current wall-clock time, rendered
as a UTC ISO-8601-milliseconds string with a trailing `Z`. -/
theorem to_iso_z_parse_failure_falls_back_to_now (nowUs : Int) (s : String)
    (h : isoparse s = Option.none) :
    to_iso_z nowUs (PyVal.str s) = .ok (renderEpochUs nowUs) ∧
    ∃ p, to_iso_z nowUs (PyVal.str s) = .ok (p ++ "Z") := by
  have h1 : to_iso_z nowUs (PyVal.str s) = .ok (renderEpochUs nowUs) := by
    show (match isoparse s with
          | some p =>
            if parsedToUtcUs p < datetimeMinUs ∨ datetimeMaxUs < parsedToUtcUs p then
              Except.ok (renderEpochUs nowUs)
            else Except.ok (renderEpochUs (parsedToUtcUs p))
          | Option.none => Except.ok (renderEpochUs nowUs)) =
        Except.ok (renderEpochUs nowUs)
    rw [h]
  refine ⟨h1, ?_⟩
  rw [h1]
  exact ⟨_, rfl⟩

/-- Claim C7, witness: `"not-a-date"` fails to parse and falls back to "now". -/
theorem to_iso_z_parse_failure_falls_back_to_now_witness :
    isoparse "not-a-date" = Option.none ∧
    to_iso_z 0 (PyVal.str "not-a-date") = .ok (renderEpochUs 0) :=
  ⟨rfl, (to_iso_z_parse_failure_falls_back_to_now 0 "not-a-date" rfl).1⟩

/-- Claim C9: a pair whose evaluation report has an absent or empty `results`
list increments the pair counter, leaves the event counter unchanged, makes no
forwarding call, and raises no error. -/
theorem empty_results_pair_counts_no_forward (cfg : Config) (env : Env) (nowUs : Int)
    (dsId critId : String) (dsName : PyVal) (pairs events : Nat) (report iv rv : PyVal)
    (isoTs : String)
    (hok : (env.evalResp dsId critId).ok = true)
    (hj : (env.evalResp dsId critId).jsonBody = some report)
    (hiss : pyGet report "issued" = .ok iv)
    (hts : to_iso_z nowUs iv = .ok isoTs)
    (hres : pyGet report "results" = .ok rv)
    (hrv : rv = PyVal.none ∨ rv = PyVal.list []) :
    runCriteria cfg env nowUs dsId dsName [critId] pairs events =
      (.ok (pairs + 1, events), [NetCall.evalQuality dsId critId]) := by
  unfold runCriteria processPair evaluateQuality
  rw [hok]
  rcases hrv with h | h <;> subst h <;>
    simp [hj, hiss, hts, hres, pyOr, pyTruthy, toPyList, processResults, runCriteria]

/-- Claim C9, witness: a report with `results = []` yields one pair, zero
events, and a trace with no POST. -/
theorem empty_results_pair_counts_no_forward_witness :
    runCriteria
      { criteria_ids := ["c1"], dataset_ids := ["d1"], logstash_basic_auth := some "tok" }
      { fetchResp := fun _ => { status := 200, text := "", jsonBody := Option.none },
        evalResp := fun _ _ =>
          { status := 200, text := "b",
            jsonBody := some (PyVal.dict
              [("issued", PyVal.none), ("results", PyVal.list [])]) },
        forwardResp := fun _ => { status := 200, text := "", jsonBody := Option.none } }
      0 "d1" PyVal.none ["c1"] 0 0 =
      (.ok (1, 0), [NetCall.evalQuality "d1" "c1"]) :=
  empty_results_pair_counts_no_forward _ _ 0 "d1" "c1" PyVal.none 0 0
    (PyVal.dict [("issued", PyVal.none), ("results", PyVal.list [])])
    PyVal.none (PyVal.list []) (renderEpochUs 0) rfl rfl rfl rfl rfl (Or.inr rfl)

/-- Claim C10: the event's `passed` field is the strict truthiness coercion
(`bool(...)`) of the result row's `passed` value (with a missing key reading
as `None`, hence `false`), and it serializes as that boolean. -/
theorem passed_strict_truthiness_coercion (dsId : String) (dsName : PyVal) (isoTs : String)
    (report res pv : PyVal) (evt : MonitoringPlatformQualityCheck)
    (hp : pyGet res "passed" = .ok pv)
    (hb : buildEvent dsId dsName isoTs report res = .ok evt) :
    evt.passed = pyTruthy pv ∧
    evt.to_dict.lookup "passed" = some (PyVal.bool (pyTruthy pv)) := by
  obtain ⟨catv, rid, nm, ctx, cc, lowv, vopt, pv2, h1, h2, h3, h4, h5, h6, h7, he⟩ :=
    buildEvent_ok_inv hb
  have hpv : pv2 = pv := by
    rw [hp] at h7
    injection h7 with h
    exact h.symm
  subst hpv
  subst he
  exact ⟨rfl, by rw [to_dict_lookup_passed]; rfl⟩

/-- Claim C10, witness: a result row with `passed = 1` (truthy) serializes
`passed` as `true`. -/
theorem passed_strict_truthiness_coercion_witness :
    (initCheck (PyVal.str "d1") PyVal.none PyVal.none
        (some [("context", PyVal.none), ("category", PyVal.none)]) PyVal.none Option.none
        true "t").to_dict.lookup "passed" = some (PyVal.bool (pyTruthy (PyVal.num 1))) :=
  (passed_strict_truthiness_coercion "d1" PyVal.none "t" (PyVal.dict [])
    (PyVal.dict [("passed", PyVal.num 1)]) (PyVal.num 1)
    (initCheck (PyVal.str "d1") PyVal.none PyVal.none
      (some [("context", PyVal.none), ("category", PyVal.none)]) PyVal.none Option.none
      true "t") rfl rfl).2
